import Mathlib

/-!
Verification development for the customer-profile-manager backend
(server.js).  The wishlist subsystem and the staged image upload
pipeline are embedded shallowly: JavaScript JSON values become the
inductive type `Json`, JS truthiness / stringification / property
access become executable Lean functions, and each Express handler
body becomes a pure function parameterised by oracles for the
upstream Shopify calls (product lookup, metafield persist).  The
outcome of the built-in JSON.parse on the stored metafield text is
taken as an input (`Option (Except Unit Json)`): `none` models an
absent metafield (or a falsy stored value), `some (.error ())` a
parse exception, `some (.ok j)` a successful parse.
-/

/-- A JavaScript JSON value (what JSON.parse can produce and what the
request body / stored metafield hold).  Numbers are modelled as
integers, which covers every value the wishlist code manipulates. -/
inductive Json where
  | null : Json
  | bool (b : Bool) : Json
  | num (n : Int) : Json
  | str (s : String) : Json
  | arr (elems : List Json) : Json
  | obj (fields : List (String × Json)) : Json
deriving Repr

mutual
/-- Structural equality test on JSON values. -/
def jsonBeq : Json → Json → Bool
  | .null, .null => true
  | .bool a, .bool b => a == b
  | .num a, .num b => a == b
  | .str a, .str b => a == b
  | .arr xs, .arr ys => jsonBeqList xs ys
  | .obj fs, .obj gs => jsonBeqFields fs gs
  | _, _ => false

/-- Structural equality on lists of JSON values. -/
def jsonBeqList : List Json → List Json → Bool
  | [], [] => true
  | x :: xs, y :: ys => jsonBeq x y && jsonBeqList xs ys
  | _, _ => false

/-- Structural equality on object field lists. -/
def jsonBeqFields : List (String × Json) → List (String × Json) → Bool
  | [], [] => true
  | (k, v) :: fs, (l, w) :: gs => k == l && jsonBeq v w && jsonBeqFields fs gs
  | _, _ => false
end

mutual
theorem jsonBeq_iff : ∀ a b : Json, jsonBeq a b = true ↔ a = b
  | .null, b => by cases b <;> simp [jsonBeq]
  | .bool a, b => by cases b <;> simp [jsonBeq]
  | .num a, b => by cases b <;> simp [jsonBeq]
  | .str a, b => by cases b <;> simp [jsonBeq]
  | .arr xs, b => by
      cases b <;> simp [jsonBeq]
      exact jsonBeqList_iff xs _
  | .obj fs, b => by
      cases b <;> simp [jsonBeq]
      exact jsonBeqFields_iff fs _

theorem jsonBeqList_iff : ∀ xs ys : List Json, jsonBeqList xs ys = true ↔ xs = ys
  | [], ys => by cases ys <;> simp [jsonBeqList]
  | x :: xs, ys => by
      cases ys with
      | nil => simp [jsonBeqList]
      | cons y ys =>
        simp [jsonBeqList, jsonBeq_iff x y, jsonBeqList_iff xs ys]

theorem jsonBeqFields_iff : ∀ fs gs : List (String × Json),
    jsonBeqFields fs gs = true ↔ fs = gs
  | [], gs => by cases gs <;> simp [jsonBeqFields]
  | (k, v) :: fs, gs => by
      cases gs with
      | nil => simp [jsonBeqFields]
      | cons g gs =>
        obtain ⟨l, w⟩ := g
        simp [jsonBeqFields, jsonBeq_iff v w, jsonBeqFields_iff fs gs,
          Prod.ext_iff, and_assoc]
end

instance : DecidableEq Json := fun a b =>
  decidable_of_iff (jsonBeq a b = true) (jsonBeq_iff a b)

/-- JS truthiness of a JSON value. -/
def truthy : Json → Bool
  | .null => false
  | .bool b => b
  | .num n => n != 0
  | .str s => s != ""
  | .arr _ => true
  | .obj _ => true

/-- JS truthiness of a possibly-undefined value (`none` = undefined). -/
def truthyO : Option Json → Bool
  | some j => truthy j
  | none => false

mutual
/-- JS String(v) conversion on JSON values. -/
def jsString : Json → String
  | .null => "null"
  | .bool b => cond b "true" "false"
  | .num n => toString n
  | .str s => s
  | .arr xs => String.intercalate "," (jsStringElems xs)
  | .obj _ => "[object Object]"

/-- Array elements stringify with null rendered as the empty string. -/
def jsStringElems : List Json → List String
  | [] => []
  | .null :: xs => "" :: jsStringElems xs
  | x :: xs => jsString x :: jsStringElems xs
end

/-- JS String(v) where the value may be undefined. -/
def jsStringO : Option Json → String
  | some j => jsString j
  | none => "undefined"

/-- Key lookup in an object field list (later duplicate keys win, as
for JS object properties). -/
def lookupField (fs : List (String × Json)) (k : String) : Option Json :=
  fs.reverse.lookup k

/-- Property access that cannot throw: `undefined` (`none`) on
non-objects.  Used only where the receiver is known non-null. -/
def jsGetSafe : Json → String → Option Json
  | .obj fs, k => lookupField fs k
  | _, _ => none

/-- Property access as in JS: accessing a property of `null` throws a
TypeError (`Except.error`); on any other value it evaluates to the
property or `undefined`. -/
def jsGetField : Json → String → Except Unit (Option Json)
  | .null, _ => .error ()
  | j, k => .ok (jsGetSafe j k)

/-- Property access on a nullable variable (`none` = the JS value
null, as in `let newProduct = null`). -/
def jsGetFieldO : Option Json → String → Except Unit (Option Json)
  | none, _ => .error ()
  | some j, k => jsGetField j k

/-- JS strict equality (===) between JSON values.  Primitives compare
by value; objects and arrays compare by reference, and the two sides
compared by the wishlist code always come from distinct allocations
(stored entries vs. the request body), so they are never identical. -/
def jsStrictEq : Json → Json → Bool
  | .null, .null => true
  | .bool a, .bool b => a == b
  | .num a, .num b => a == b
  | .str a, .str b => a == b
  | _, _ => false

/-- Strict equality where the left side may be undefined. -/
def optStrictEq : Option Json → Json → Bool
  | some a, b => jsStrictEq a b
  | none, _ => false

/-- The field list of a value under JS object spread (primitives and
arrays contribute no string-keyed own enumerable properties that the
wishlist code ever reads back; entries spread here are objects). -/
def jsFields : Json → List (String × Json)
  | .obj fs => fs
  | _ => []

/-- JS object spread: keys of `a` keep their positions (values
overridden by `b` where present), then keys of `b` not in `a` follow
in order. -/
def spreadFields (a b : List (String × Json)) : List (String × Json) :=
  (a.map fun kv =>
    match b.reverse.lookup kv.1 with
    | some v => (kv.1, v)
    | none => kv)
  ++ b.filter fun kv => (a.reverse.lookup kv.1).isNone

/-- The JS expression spread of two values into a fresh object. -/
def jsSpread (a b : Json) : Json :=
  .obj (spreadFields (jsFields a) (jsFields b))

/-!
## Wishlist store adapter (server.js, wishlist endpoints)
-/

/-- The list recovered from the stored `custom.wishlist` metafield:
`none` models an absent metafield or falsy stored value, `some
(.error ())` a JSON.parse exception, `some (.ok j)` a parse producing
`j`; any outcome other than an array yields the empty list
(`let wishlist = []; if (node && node.node.value) try ... catch`). -/
def loadWishlist : Option (Except Unit Json) → List Json
  | some (.ok (.arr xs)) => xs
  | _ => []

/-- One entry of `normalizeWishlistEntries`: a bare string or number
becomes an object with a stringified id; every other value is
returned unchanged. -/
def normalizeEntry : Json → Json
  | .str s => .obj [("id", .str s)]
  | .num n => .obj [("id", .str (toString n))]
  | j => j

/-- The function normalizeWishlistEntries from server.js. -/
def normalizeWishlistEntries (list : List Json) : List Json :=
  list.map normalizeEntry

/-- The id-comparison half of the duplicate check in the add handler:
`if (newProduct.id && item.id) return String(item.id) ===
String(newProduct.id); return false;`.  Accessing a property of a
null `newProduct` or null `item` throws. -/
def dupMatchId (np : Option Json) (item : Json) : Except Unit Bool :=
  match jsGetFieldO np "id" with
  | .error e => .error e
  | .ok ni =>
    if truthyO ni then
      match jsGetField item "id" with
      | .error e => .error e
      | .ok ii =>
        if truthyO ii then .ok (jsStringO ii == jsStringO ni) else .ok false
    else .ok false

/-- The per-item duplicate test of the add handler (lines 902-906):
`if (newProduct.handle && item.handle) return item.handle ===
newProduct.handle;` and otherwise the id comparison. -/
def dupMatch (np : Option Json) (item : Json) : Except Unit Bool :=
  match jsGetFieldO np "handle" with
  | .error e => .error e
  | .ok nh =>
    if truthyO nh then
      match jsGetField item "handle" with
      | .error e => .error e
      | .ok ih =>
        if truthyO ih then .ok (optStrictEq ih (nh.getD Json.null))
        else dupMatchId np item
    else dupMatchId np item

/-- The JS array some method with a predicate that can throw, left to
right, stopping at the first `true`. -/
def someM (f : Json → Except Unit Bool) : List Json → Except Unit Bool
  | [] => .ok false
  | x :: xs =>
    match f x with
    | .error e => .error e
    | .ok true => .ok true
    | .ok false => someM f xs

/-- Whether typeof yields the string object: true for null, arrays and plain
objects. -/
def isObjectType : Json → Bool
  | .null => true
  | .arr _ => true
  | .obj _ => true
  | _ => false

/-- Resolution of `newProduct` in the add handler (lines 891-899),
with `fetch` the outcome of `fetchProductById` (`none` = it returned
null).  Returns `none` when `newProduct` stays JS null. -/
def resolveNewProduct (fetch : String → Option Json)
    (product product_handle product_id : Option Json) : Option Json :=
  if truthyO product && (match product with
      | some p => isObjectType p
      | none => false) then
    product
  else if truthyO product_handle then
    some (.obj [("handle", .str (jsStringO product_handle))])
  else if truthyO product_id then
    let pid := jsStringO product_id
    match fetch pid with
    | some f => if truthy f then some f else some (.obj [("id", .str pid)])
    | none => some (.obj [("id", .str pid)])
  else
    none

/-- The duplicate check and conditional push of the add handler: the
resolved entry is appended exactly when no existing entry matches
`dupMatch`; a null resolved entry is pushed as JSON null when the
list is empty (the `some` callback never runs). -/
def addCore (np : Option Json) (wl : List Json) : Except Unit (List Json) :=
  match someM (dupMatch np) wl with
  | .error e => .error e
  | .ok ex => .ok (if ex then wl else wl ++ [np.getD Json.null])

/-- The full in-memory list computation of POST /wishlist/add: load
is already done (`w` is the parsed stored array), normalize, resolve,
duplicate-check, push. -/
def addNewWishlist (fetch : String → Option Json) (w : List Json)
    (product product_handle product_id : Option Json) :
    Except Unit (List Json) :=
  addCore (resolveNewProduct fetch product product_handle product_id)
    (normalizeWishlistEntries w)

/-- Extraction of a removal key from the `product` object of the
request body: when product is a truthy object value, a truthy handle
field (respectively id field) is stringified into the key. -/
def keyFromProduct (product : Option Json) (k : String) : Option String :=
  match product with
  | some p =>
    if truthy p && isObjectType p then
      match jsGetSafe p k with
      | some v => if truthy v then some (jsString v) else none
      | none => none
    else none
  | none => none

/-- A later `if (field) key = String(field)` assignment: overrides the
previous key only when the discrete body field is truthy. -/
def overrideKey (prev : Option String) (v : Option Json) : Option String :=
  if truthyO v then some (jsStringO v) else prev

/-- The pair handleToRemove and idToRemove of the remove handler
(lines 987-996): product-object fields first, then the discrete
`product_handle` / `product_id` body fields override. -/
def removeKeys (product product_handle product_id : Option Json) :
    Option String × Option String :=
  (overrideKey (keyFromProduct product "handle") product_handle,
   overrideKey (keyFromProduct product "id") product_id)

/-- Truthiness of a JS variable that is null or a string. -/
def strTruthy : Option String → Bool
  | some s => s != ""
  | none => false

/-- The id half of the remove filter callback: `if (idToRemove &&
item.id) return String(item.id) !== idToRemove; return true;`. -/
def keepItemId (iR : Option String) (item : Json) : Except Unit Bool :=
  if strTruthy iR then
    match jsGetField item "id" with
    | .error e => .error e
    | .ok ii =>
      if truthyO ii then .ok (jsStringO ii != iR.getD "") else .ok true
  else
    .ok true

/-- The remove filter callback (lines 998-1003): keep an item unless
it matches the handle key (when both present) or, failing that, the
id key (when both present). -/
def keepItem (hR iR : Option String) (item : Json) : Except Unit Bool :=
  if strTruthy hR then
    match jsGetField item "handle" with
    | .error e => .error e
    | .ok ih =>
      if truthyO ih then .ok (!optStrictEq ih (.str (hR.getD "")))
      else keepItemId iR item
  else
    keepItemId iR item

/-- The JS array filter method with a callback that can throw, left to
right. -/
def filterME (f : Json → Except Unit Bool) : List Json → Except Unit (List Json)
  | [] => .ok []
  | x :: xs =>
    match f x with
    | .error e => .error e
    | .ok b =>
      match filterME f xs with
      | .error e => .error e
      | .ok r => .ok (if b then x :: r else r)

/-- The full in-memory list computation of POST /wishlist/remove:
normalize the parsed stored array, compute the removal keys, filter. -/
def removeNewWishlist (w : List Json)
    (product product_handle product_id : Option Json) :
    Except Unit (List Json) :=
  filterME
    (keepItem (removeKeys product product_handle product_id).1
      (removeKeys product product_handle product_id).2)
    (normalizeWishlistEntries w)

/-- Add followed by Remove with the same selector against the same
customer: the array stored by Add is re-read (JSON round-trip is the
identity on the model) and filtered by Remove. -/
def addThenRemove (fetch : String → Option Json) (w : List Json)
    (product product_handle product_id : Option Json) :
    Except Unit (List Json) :=
  match addNewWishlist fetch w product product_handle product_id with
  | .error e => .error e
  | .ok w1 => removeNewWishlist w1 product product_handle product_id

/-- The shared request validation of the add and remove handlers:
`if (!customer_id || (!product_id && !product_handle && !product))
return res.status(400)`. -/
def wishlistBodyValid
    (customer_id product_id product_handle product : Option Json) : Bool :=
  truthyO customer_id &&
    (truthyO product_id || truthyO product_handle || truthyO product)

/-- Outcome of the metafield persist mutation, as reported by the
upstream platform. -/
inductive PersistOutcome where
  | ok : PersistOutcome
  | userErrors : PersistOutcome
  | throwErr : PersistOutcome
deriving Repr, DecidableEq

/-- The response of POST /wishlist/add as seen by the caller. -/
inductive AddResp where
  | missingField : AddResp
  | serverError : AddResp
  | upstreamError : AddResp
  | okList (wishlist : List Json) : AddResp
deriving Repr, DecidableEq

/-- The add handler end to end: validation, load, list computation (a
thrown TypeError reaches the catch block and yields a 500), persist
(upstream user errors yield a 400, a transport throw a 500), success
response carrying the post-merge list. -/
def addHandler (fetch : String → Option Json)
    (stored : Option (Except Unit Json))
    (customer_id product_id product_handle product : Option Json)
    (persist : PersistOutcome) : AddResp :=
  if !wishlistBodyValid customer_id product_id product_handle product then
    .missingField
  else
    match addNewWishlist fetch (loadWishlist stored)
        product product_handle product_id with
    | .error _ => .serverError
    | .ok wl =>
      match persist with
      | .userErrors => .upstreamError
      | .throwErr => .serverError
      | .ok => .okList wl

/-!
## GET /wishlist: normalize, optional expand, backfill, best-effort persist
-/

/-- Eligibility for the backfill loop (line 795): `item && item.id &&
!item.handle` — the entry is truthy, has a truthy id and a falsy
handle.  The guard short-circuits, so no property access throws. -/
def backfillEligible (item : Json) : Bool :=
  truthy item && truthyO (jsGetSafe item "id")
    && !truthyO (jsGetSafe item "handle")

/-- The stringified product id an eligible entry is looked up by
(`fetchProductById(item.id)` interpolates `String(item.id)`). -/
def backfillLookupId (item : Json) : String :=
  jsStringO (jsGetSafe item "id")

/-- One iteration of the backfill loop (lines 793-801): for an
eligible entry look the product up; when a product with a truthy
handle comes back, spread it over the entry and flag `needSave`.
Returns (new entry, id looked up if any, entry changed). -/
def backfillStep (fetch : String → Option Json) (item : Json) :
    Json × Option String × Bool :=
  if backfillEligible item then
    let pid := backfillLookupId item
    match fetch pid with
    | some f =>
      if truthy f && truthyO (jsGetSafe f "handle") then
        (jsSpread item f, some pid, true)
      else (item, some pid, false)
    | none => (item, some pid, false)
  else (item, none, false)

/-- One iteration of the `expand=true` loop (lines 780-787): entries
with a truthy id but neither title nor handle are looked up and, when
a truthy product comes back, spread-merged. -/
def expandStep (fetch : String → Option Json) (item : Json) :
    Json × Option String × Bool :=
  if truthy item && truthyO (jsGetSafe item "id")
      && (!truthyO (jsGetSafe item "title")
          && !truthyO (jsGetSafe item "handle")) then
    let pid := jsStringO (jsGetSafe item "id")
    match fetch pid with
    | some f => if truthy f then (jsSpread item f, some pid, false)
                else (item, some pid, false)
    | none => (item, some pid, false)
  else (item, none, false)

/-- An in-place `for` loop over the wishlist collecting the rewritten
entries, the ids looked up, and whether any entry changed. -/
def mapCollect (step : Json → Json × Option String × Bool) :
    List Json → List Json × List String × Bool
  | [] => ([], [], false)
  | x :: xs =>
    let (y, l, c) := step x
    let (ys, ls, cs) := mapCollect step xs
    (y :: ys, (match l with | some s => s :: ls | none => ls), c || cs)

/-- The JSON body answered by GET /wishlist. -/
structure WishResponse where
  success : Bool
  wishlist : List Json
deriving Repr, DecidableEq

/-- Observable outcome of one GET /wishlist request: the response,
the product ids looked up by the expand and backfill loops, and
whether the best-effort persist of the enriched array was issued. -/
structure GetOutput where
  resp : WishResponse
  expandLookups : List String
  backfillLookups : List String
  persistAttempted : Bool
deriving Repr, DecidableEq

/-- GET /wishlist end to end: load and normalize the stored value,
run the optional expand loop, run the backfill loop, persist when an
entry changed.  The persist outcome is only logged by the handler, so
it does not appear in any output component: the response carries the
in-memory enriched list and `success: true` regardless. -/
def getWishlist (fetch : String → Option Json)
    (stored : Option (Except Unit Json)) (expand : Bool)
    (persist : PersistOutcome) : GetOutput :=
  let wl0 := normalizeWishlistEntries (loadWishlist stored)
  let r1 := if expand then mapCollect (expandStep fetch) wl0
            else (wl0, [], false)
  let r2 := mapCollect (backfillStep fetch) r1.1
  { resp := { success := true, wishlist := r2.1 }
    expandLookups := r1.2.1
    backfillLookups := r2.2.1
    persistAttempted := r2.2.2 }

/-- The wishlist after the optional expand loop and before the
backfill loop: the per-entry expand rewrite when the expand flag is
set, the normalized list unchanged otherwise. -/
def expandPhase (fetch : String → Option Json) (expand : Bool)
    (wl : List Json) : List Json :=
  if expand then wl.map (fun it => (expandStep fetch it).1) else wl

/-!
## Staged image upload pipeline (POST /upload-profile-image)
-/

/-- A platform user error as reported in a GraphQL mutation payload. -/
structure GqlUserError where
  errField : Option String
  message : String
deriving Repr, DecidableEq

/-- One staged upload target as returned by stagedUploadsCreate. -/
structure StagedTarget where
  url : Option String
  resourceUrl : Option String
  parameters : List (String × String)
deriving Repr, DecidableEq

/-- The payload at `data?.stagedUploadsCreate` (either field can be
missing when the optional chain hits undefined). -/
structure StagedResponse where
  userErrors : Option (List GqlUserError)
  stagedTargets : Option (List StagedTarget)
deriving Repr, DecidableEq

/-- The payload at `data?.fileCreate`. -/
structure RegisterResponse where
  userErrors : Option (List GqlUserError)
  fileIds : List (Option String)
deriving Repr, DecidableEq

/-- The payload at `data?.customerUpdate` of the metafield attach. -/
structure AttachResponse where
  userErrors : Option (List GqlUserError)
deriving Repr, DecidableEq

/-- The upstream calls the pipeline can issue after the staged-upload
request (whose response is the `staged` input below). -/
inductive PipeStep where
  | uploadCall : PipeStep
  | registerCall : PipeStep
  | attachCall : PipeStep
deriving Repr, DecidableEq

/-- What the caller of POST /upload-profile-image receives. -/
inductive PipeResult where
  | badRequest (reason : String) : PipeResult
  | serverError : PipeResult
  | success (fileId : String) : PipeResult
deriving Repr, DecidableEq

/-- The check errs and errs.length positive on an optional user-error list. -/
def hasUserErrors : Option (List GqlUserError) → Bool
  | some errs => errs.length > 0
  | none => false

/-- The first staged target when usable: present with a truthy url
(`if (!stagedTarget || !stagedTarget.url) return 400`). -/
def usableTarget (staged : StagedResponse) : Option StagedTarget :=
  match staged.stagedTargets with
  | some (t :: _) => if strTruthy t.url then some t else none
  | _ => none

/-- The upload pipeline from the staged-upload response on (server.js
lines 545-720): abort with a 400 on staged user errors or a missing
target/url; otherwise POST the binary to the signed url (a throw is a
500), register the file (user errors or a falsy file id are a 400),
attach the metafield (user errors are a 400), else succeed.  The trace
records which of the later upstream calls were issued. -/
def uploadPipeline (staged : StagedResponse)
    (uploadOutcome : Except Unit Unit) (register : RegisterResponse)
    (attach : AttachResponse) : PipeResult × List PipeStep :=
  if hasUserErrors staged.userErrors then
    (.badRequest "Failed to create staged upload", [])
  else
    match usableTarget staged with
    | none => (.badRequest "Failed to get staged upload URL", [])
    | some _ =>
      match uploadOutcome with
      | .error _ => (.serverError, [.uploadCall])
      | .ok _ =>
        if hasUserErrors register.userErrors then
          (.badRequest "file create user errors",
            [.uploadCall, .registerCall])
        else
          match register.fileIds with
          | (some fid) :: _ =>
            if fid != "" then
              if hasUserErrors attach.userErrors then
                (.badRequest "metafield user errors",
                  [.uploadCall, .registerCall, .attachCall])
              else
                (.success fid, [.uploadCall, .registerCall, .attachCall])
            else
              (.badRequest "Failed to create file",
                [.uploadCall, .registerCall])
          | _ =>
            (.badRequest "Failed to create file",
              [.uploadCall, .registerCall])

/-!
## Clean decision rules (used to state corrected claims)
-/

/-- The duplicate rule the add handler actually implements, as a pure
predicate on a non-null resolved entry and a non-null item: when both
carry truthy handles the handles alone decide; otherwise, when both
carry truthy ids, the stringified ids decide; otherwise no match. -/
def dupRule (np item : Json) : Bool :=
  if truthyO (jsGetSafe np "handle") && truthyO (jsGetSafe item "handle") then
    optStrictEq (jsGetSafe item "handle")
      ((jsGetSafe np "handle").getD Json.null)
  else if truthyO (jsGetSafe np "id") && truthyO (jsGetSafe item "id") then
    jsStringO (jsGetSafe item "id") == jsStringO (jsGetSafe np "id")
  else false

/-- The removal rule the remove filter actually implements on a
non-null item: when a truthy handle key and a truthy item handle are
both present the handle comparison alone decides; otherwise, when a
truthy id key and a truthy item id are both present, the stringified
id decides; otherwise the item does not match (and is kept). -/
def removeRule (hR iR : Option String) (item : Json) : Bool :=
  if strTruthy hR && truthyO (jsGetSafe item "handle") then
    optStrictEq (jsGetSafe item "handle") (.str (hR.getD ""))
  else if strTruthy iR && truthyO (jsGetSafe item "id") then
    jsStringO (jsGetSafe item "id") == iR.getD ""
  else false

/-- Modelled from the spec, section 3 identity rule, for comparison
with the code: two entries are the same product if their handles
match when both are present OR their ids match (string-compared) when
both are present. -/
def specSameEntry (a b : Json) : Bool :=
  (truthyO (jsGetSafe a "handle") && truthyO (jsGetSafe b "handle")
    && optStrictEq (jsGetSafe a "handle") ((jsGetSafe b "handle").getD Json.null))
  || (truthyO (jsGetSafe a "id") && truthyO (jsGetSafe b "id")
    && (jsStringO (jsGetSafe a "id") == jsStringO (jsGetSafe b "id")))

/-- Modelled from the spec wording of the Remove filter, for
comparison with the code: an entry matches the selector if it matches
on handle (handle key and entry handle both present) OR on id (id key
and entry id both present). -/
def specRemoveMatch (hR iR : Option String) (item : Json) : Bool :=
  (strTruthy hR && truthyO (jsGetSafe item "handle")
    && optStrictEq (jsGetSafe item "handle") (.str (hR.getD "")))
  || (strTruthy iR && truthyO (jsGetSafe item "id")
    && (jsStringO (jsGetSafe item "id") == iR.getD ""))

/-!
## Helper lemmas
-/

theorem normalizeEntry_idem (j : Json) :
    normalizeEntry (normalizeEntry j) = normalizeEntry j := by
  cases j <;> rfl

theorem normalizeWishlistEntries_idem (l : List Json) :
    normalizeWishlistEntries (normalizeWishlistEntries l)
      = normalizeWishlistEntries l := by
  unfold normalizeWishlistEntries
  rw [List.map_map]
  exact List.map_congr_left fun x _ => normalizeEntry_idem x

theorem normalizeEntry_ne_null {j : Json} (h : j ≠ Json.null) :
    normalizeEntry j ≠ Json.null := by
  cases j <;> simp_all [normalizeEntry]

theorem mem_normalize_ne_null {w : List Json}
    (hw : ∀ x ∈ w, x ≠ Json.null) :
    ∀ x ∈ normalizeWishlistEntries w, x ≠ Json.null := by
  intro x hx
  obtain ⟨y, hy, rfl⟩ := List.mem_map.mp hx
  exact normalizeEntry_ne_null (hw y hy)

theorem jsGetField_of_ne_null {j : Json} (k : String) (h : j ≠ Json.null) :
    jsGetField j k = .ok (jsGetSafe j k) := by
  cases j <;> simp_all [jsGetField]

theorem jsGetFieldO_some (j : Json) (k : String) :
    jsGetFieldO (some j) k = jsGetField j k := rfl

theorem dupMatchId_eq {np item : Json} (hnp : np ≠ Json.null)
    (hit : item ≠ Json.null) :
    dupMatchId (some np) item
      = .ok (truthyO (jsGetSafe np "id") && truthyO (jsGetSafe item "id")
          && (jsStringO (jsGetSafe item "id") == jsStringO (jsGetSafe np "id"))) := by
  unfold dupMatchId
  rw [jsGetFieldO_some, jsGetField_of_ne_null _ hnp,
    jsGetField_of_ne_null _ hit]
  by_cases h1 : truthyO (jsGetSafe np "id") <;>
    by_cases h2 : truthyO (jsGetSafe item "id") <;> simp [h1, h2]

theorem dupMatch_eq {np item : Json} (hnp : np ≠ Json.null)
    (hit : item ≠ Json.null) :
    dupMatch (some np) item = .ok (dupRule np item) := by
  unfold dupMatch dupRule
  rw [jsGetFieldO_some, jsGetField_of_ne_null _ hnp,
    jsGetField_of_ne_null _ hit]
  by_cases h1 : truthyO (jsGetSafe np "handle") <;>
    by_cases h2 : truthyO (jsGetSafe item "handle") <;>
      simp [h1, h2, dupMatchId_eq hnp hit, Option.getD]

theorem someM_dupMatch_eq {np : Json} (hnp : np ≠ Json.null) :
    ∀ {wl : List Json}, (∀ x ∈ wl, x ≠ Json.null) →
      someM (dupMatch (some np)) wl = .ok (wl.any (dupRule np))
  | [], _ => rfl
  | x :: xs, hw => by
    have hx : x ≠ Json.null := hw x (by simp)
    have hxs : ∀ y ∈ xs, y ≠ Json.null := fun y hy => hw y (by simp [hy])
    unfold someM
    rw [dupMatch_eq hnp hx]
    by_cases hb : dupRule np x
    · simp [hb]
    · simp only [hb]
      rw [someM_dupMatch_eq hnp hxs]
      simp [hb]

theorem keepItemId_eq {item : Json} (iR : Option String)
    (hit : item ≠ Json.null) :
    keepItemId iR item
      = .ok (!(strTruthy iR && truthyO (jsGetSafe item "id")
          && (jsStringO (jsGetSafe item "id") == iR.getD ""))) := by
  unfold keepItemId
  rw [jsGetField_of_ne_null _ hit]
  by_cases h1 : strTruthy iR <;> by_cases h2 : truthyO (jsGetSafe item "id") <;>
    simp [h1, h2, bne]

theorem keepItem_eq {item : Json} (hR iR : Option String)
    (hit : item ≠ Json.null) :
    keepItem hR iR item = .ok (!removeRule hR iR item) := by
  unfold keepItem removeRule
  rw [jsGetField_of_ne_null _ hit]
  by_cases h1 : strTruthy hR <;>
    by_cases h2 : truthyO (jsGetSafe item "handle") <;>
      simp [h1, h2, keepItemId_eq _ hit]

theorem filterME_keepItem_eq (hR iR : Option String) :
    ∀ {wl : List Json}, (∀ x ∈ wl, x ≠ Json.null) →
      filterME (keepItem hR iR) wl
        = .ok (wl.filter fun it => !removeRule hR iR it)
  | [], _ => rfl
  | x :: xs, hw => by
    have hx : x ≠ Json.null := hw x (by simp)
    have hxs : ∀ y ∈ xs, y ≠ Json.null := fun y hy => hw y (by simp [hy])
    unfold filterME
    rw [keepItem_eq hR iR hx, filterME_keepItem_eq hR iR hxs]
    by_cases hb : removeRule hR iR x <;> simp [hb, List.filter_cons]

theorem mapCollect_fst (step : Json → Json × Option String × Bool) :
    ∀ l : List Json, (mapCollect step l).1 = l.map fun x => (step x).1
  | [] => rfl
  | x :: xs => by
    unfold mapCollect
    simp [mapCollect_fst step xs]

theorem mapCollect_lookups (step : Json → Json × Option String × Bool) :
    ∀ l : List Json,
      (mapCollect step l).2.1 = l.filterMap fun x => (step x).2.1
  | [] => rfl
  | x :: xs => by
    unfold mapCollect
    rcases h : (step x).2.1 with _ | s <;>
      simp [h, mapCollect_lookups step xs, List.filterMap_cons]

theorem mapCollect_changed (step : Json → Json × Option String × Bool) :
    ∀ l : List Json,
      (mapCollect step l).2.2 = l.any fun x => (step x).2.2
  | [] => rfl
  | x :: xs => by
    unfold mapCollect
    simp [mapCollect_changed step xs]

theorem backfillStep_lookup (fetch : String → Option Json) (x : Json) :
    (backfillStep fetch x).2.1
      = if backfillEligible x then some (backfillLookupId x) else none := by
  unfold backfillStep
  by_cases h : backfillEligible x
  · simp only [h, if_true]
    rcases fetch (backfillLookupId x) with _ | f
    · rfl
    · by_cases hf : truthy f && truthyO (jsGetSafe f "handle") <;> simp [hf]
  · simp [h]

theorem truthy_of_field {it : Json} {k : String}
    (h : truthyO (jsGetSafe it k) = true) : truthy it = true := by
  cases it <;> simp_all [jsGetSafe, truthyO, truthy]

theorem expandStep_lookup (fetch : String → Option Json) (x : Json) :
    (expandStep fetch x).2.1
      = if truthy x && truthyO (jsGetSafe x "id")
            && (!truthyO (jsGetSafe x "title")
                && !truthyO (jsGetSafe x "handle"))
        then some (jsStringO (jsGetSafe x "id")) else none := by
  unfold expandStep
  by_cases h : truthy x && truthyO (jsGetSafe x "id")
      && (!truthyO (jsGetSafe x "title") && !truthyO (jsGetSafe x "handle"))
  · simp only [h, if_true]
    rcases fetch (jsStringO (jsGetSafe x "id")) with _ | f
    · rfl
    · by_cases hf : truthy f <;> simp [hf]
  · simp [h]

theorem expandStep_fst_of_title (fetch : String → Option Json) {x : Json}
    (ht : truthyO (jsGetSafe x "title") = true) :
    (expandStep fetch x).1 = x := by
  unfold expandStep
  simp [ht]

theorem filterMap_if_eq_filter_map (p : Json → Bool) (g : Json → String) :
    ∀ l : List Json,
      (l.filterMap fun x => if p x then some (g x) else none)
        = (l.filter p).map g
  | [] => rfl
  | x :: xs => by
    by_cases h : p x <;>
      simp [List.filterMap_cons, List.filter_cons, h,
        filterMap_if_eq_filter_map p g xs]

/-!
## Claims
-/

/-- C8: normalization is idempotent — applying `normalizeWishlistEntries`
to an already-normalized list yields the same list
(`normalize (normalize l) = normalize l`). -/
theorem claim_C8_normalize_idempotent (l : List Json) :
    normalizeWishlistEntries (normalizeWishlistEntries l)
      = normalizeWishlistEntries l :=
  normalizeWishlistEntries_idem l

/-- C9: normalization returns a list of exactly the same length with
entries in the same positions — no entry is dropped, added or
reordered, whatever the shapes of the entries. -/
theorem claim_C9_normalize_preserves_positions (l : List Json) :
    (normalizeWishlistEntries l).length = l.length
    ∧ ∀ i : Nat,
        (normalizeWishlistEntries l)[i]? = (l[i]?).map normalizeEntry := by
  refine ⟨by simp [normalizeWishlistEntries], fun i => ?_⟩
  simp [normalizeWishlistEntries]

/-- C3: normalization maps a bare string or number entry to an object
with the stringified value under "id", passes objects (and arrays)
through unchanged, passes anything else through unchanged; and the
stored legacy value parsed as the array of "101" and "202" is
returned by GET /wishlist as the two id objects (with product lookups
finding nothing). -/
theorem claim_C3_normalize_shapes :
    (∀ s : String, normalizeEntry (.str s) = .obj [("id", .str s)])
    ∧ (∀ n : Int, normalizeEntry (.num n) = .obj [("id", .str (toString n))])
    ∧ (∀ fs, normalizeEntry (.obj fs) = .obj fs)
    ∧ (∀ xs, normalizeEntry (.arr xs) = .arr xs)
    ∧ normalizeEntry .null = .null
    ∧ (∀ b, normalizeEntry (.bool b) = .bool b)
    ∧ (getWishlist (fun _ => none)
        (some (.ok (.arr [.str "101", .str "202"]))) false .ok).resp
      = { success := true,
          wishlist := [.obj [("id", .str "101")], .obj [("id", .str "202")]] } :=
  ⟨fun _ => rfl, fun _ => rfl, fun _ => rfl, fun _ => rfl, rfl,
    fun _ => rfl, rfl⟩

/-- C2: whenever the stored wishlist metafield is absent, not valid
JSON, or parses to a non-array value, GET /wishlist succeeds with
success true and an empty wishlist, for every lookup oracle, expand
flag and persist outcome — malformed stored state never errors the
caller. -/
theorem claim_C2_get_recovers_malformed (fetch : String → Option Json)
    (stored : Option (Except Unit Json)) (expand : Bool)
    (persist : PersistOutcome)
    (h : stored = none ∨ stored = some (.error ()) ∨
        ∃ j, stored = some (.ok j) ∧ ∀ xs, j ≠ Json.arr xs) :
    (getWishlist fetch stored expand persist).resp
      = { success := true, wishlist := [] } := by
  have hl : loadWishlist stored = [] := by
    rcases h with rfl | rfl | ⟨j, rfl, hj⟩
    · rfl
    · rfl
    · cases j <;> first | rfl | exact absurd rfl (hj _)
  unfold getWishlist
  rw [hl]
  cases expand <;> rfl

theorem claim_C2_witness :
    (getWishlist (fun _ => none) (some (.error ())) false .ok).resp
      = { success := true, wishlist := [] } :=
  claim_C2_get_recovers_malformed _ _ _ _ (Or.inr (Or.inl rfl))

/-- C1 counterexample: the resolved entry with id "1" and handle "a"
is, by the section 3 identity rule, the same product as the stored
entry with id "1" and handle "b" (ids match), yet the add handler
appends it — when both handles are present and differ, the handle
comparison returns without ever consulting the ids. -/
theorem claim_C1_counterexample :
    specSameEntry (.obj [("id", .str "1"), ("handle", .str "a")])
        (.obj [("id", .str "1"), ("handle", .str "b")]) = true
    ∧ addNewWishlist (fun _ => none)
        [.obj [("id", .str "1"), ("handle", .str "b")]]
        (some (.obj [("id", .str "1"), ("handle", .str "a")])) none none
      = .ok [.obj [("id", .str "1"), ("handle", .str "b")],
             .obj [("id", .str "1"), ("handle", .str "a")]] :=
  ⟨rfl, rfl⟩

/-- C1 amended: the add handler considers a (non-null) resolved entry
a duplicate of an existing entry exactly per `dupRule`: when both
carry truthy handles, the handle comparison alone decides (the ids
are never consulted); otherwise, when both carry truthy ids, the
stringified ids decide; otherwise no match.  The entry is appended
iff no existing entry matches this rule. -/
theorem claim_C1_amended (np : Json) (wl : List Json)
    (hnp : np ≠ Json.null) (hwl : ∀ x ∈ wl, x ≠ Json.null) :
    addCore (some np) wl
      = .ok (if wl.any (dupRule np) then wl else wl ++ [np]) := by
  unfold addCore
  rw [someM_dupMatch_eq hnp hwl]
  rfl

theorem claim_C1_amended_witness :
    addCore (some (.obj [("id", .str "1")])) [.obj [("id", .str "1")]]
      = .ok [.obj [("id", .str "1")]] :=
  (claim_C1_amended (.obj [("id", .str "1")]) [.obj [("id", .str "1")]]
    (by decide) (by decide)).trans rfl

/-- C5 counterexample: with the selector object carrying handle "a"
and id "1", the stored entry with handle "b" and id "1" matches the
spec rule on id, yet the remove filter keeps it — the handle branch
returns "keep" without consulting the id. -/
theorem claim_C5_counterexample :
    removeKeys (some (.obj [("handle", .str "a"), ("id", .str "1")])) none none
      = (some "a", some "1")
    ∧ specRemoveMatch (some "a") (some "1")
        (.obj [("handle", .str "b"), ("id", .str "1")]) = true
    ∧ removeNewWishlist [.obj [("handle", .str "b"), ("id", .str "1")]]
        (some (.obj [("handle", .str "a"), ("id", .str "1")])) none none
      = .ok [.obj [("handle", .str "b"), ("id", .str "1")]] :=
  ⟨rfl, rfl, rfl⟩

/-- C5 amended: on a wishlist without null entries, the remove
operation keeps exactly the entries not matching `removeRule` (handle
comparison first, when both the handle key and the entry handle are
truthy this decides alone; else the id comparison when both truthy;
else keep); an entry with neither comparable field never matches any
selector keys; and when no entry matches, the (normalized) wishlist
is returned unchanged. -/
theorem claim_C5_amended (product product_handle product_id : Option Json)
    (w : List Json) (hw : ∀ x ∈ w, x ≠ Json.null) :
    removeNewWishlist w product product_handle product_id
      = .ok ((normalizeWishlistEntries w).filter fun it =>
          !removeRule (removeKeys product product_handle product_id).1
            (removeKeys product product_handle product_id).2 it)
    ∧ (∀ (hR iR : Option String) (it : Json),
        truthyO (jsGetSafe it "handle") = false →
        truthyO (jsGetSafe it "id") = false →
        removeRule hR iR it = false)
    ∧ ((∀ it ∈ normalizeWishlistEntries w,
          removeRule (removeKeys product product_handle product_id).1
            (removeKeys product product_handle product_id).2 it = false) →
        removeNewWishlist w product product_handle product_id
          = .ok (normalizeWishlistEntries w)) := by
  have hnn := mem_normalize_ne_null hw
  have hmain := filterME_keepItem_eq
    (removeKeys product product_handle product_id).1
    (removeKeys product product_handle product_id).2 hnn
  refine ⟨hmain, ?_, ?_⟩
  · intro hR iR it h1 h2
    simp [removeRule, h1, h2]
  · intro hall
    unfold removeNewWishlist
    rw [hmain, List.filter_eq_self.mpr fun a ha => by simp [hall a ha]]

theorem claim_C5_amended_witness :
    removeNewWishlist [.obj [("title", .str "t")]] none none (some (.str "9"))
      = .ok [.obj [("title", .str "t")]] :=
  ((claim_C5_amended none none (some (.str "9")) [.obj [("title", .str "t")]]
    (by decide)).1).trans rfl

/-- C4 counterexample: against the empty wishlist, Add with a product
object that has neither id nor handle appends it, and Remove with the
same selector computes no removal key and keeps it — the wishlist
does not return to its (empty) pre-Add state. -/
theorem claim_C4_counterexample :
    addThenRemove (fun _ => none) []
        (some (.obj [("title", .str "x")])) none none
      = .ok [.obj [("title", .str "x")]]
    ∧ [Json.obj [("title", .str "x")]] ≠ ([] : List Json) :=
  ⟨rfl, by decide⟩

/-- C4 amended: Add followed by Remove with the same selector returns
the wishlist to its normalized pre-Add state provided the resolved
entry is non-null and normalization-stable, no existing entry
duplicates it (so Add really appends), the resolved entry itself
matches the removal keys, and no pre-existing entry matches the
removal keys. -/
theorem claim_C4_amended (fetch : String → Option Json) (w : List Json)
    (product product_handle product_id : Option Json) (p : Json)
    (hres : resolveNewProduct fetch product product_handle product_id = some p)
    (hp : p ≠ Json.null) (hpfix : normalizeEntry p = p)
    (hw : ∀ x ∈ w, x ≠ Json.null)
    (hdup : ∀ it ∈ normalizeWishlistEntries w, dupRule p it = false)
    (hself : removeRule (removeKeys product product_handle product_id).1
        (removeKeys product product_handle product_id).2 p = true)
    (hothers : ∀ it ∈ normalizeWishlistEntries w,
        removeRule (removeKeys product product_handle product_id).1
          (removeKeys product product_handle product_id).2 it = false) :
    addThenRemove fetch w product product_handle product_id
      = .ok (normalizeWishlistEntries w) := by
  have hnn := mem_normalize_ne_null hw
  have hadd : addNewWishlist fetch w product product_handle product_id
      = .ok (normalizeWishlistEntries w ++ [p]) := by
    unfold addNewWishlist
    rw [hres]
    unfold addCore
    rw [someM_dupMatch_eq hp hnn]
    have hany : (normalizeWishlistEntries w).any (dupRule p) = false :=
      List.any_eq_false.mpr fun x hx => by simp [hdup x hx]
    simp [hany]
  unfold addThenRemove
  rw [hadd]
  have hnorm : normalizeWishlistEntries (normalizeWishlistEntries w ++ [p])
      = normalizeWishlistEntries w ++ [p] := by
    have h1 := normalizeWishlistEntries_idem w
    unfold normalizeWishlistEntries at h1 ⊢
    rw [List.map_append, h1]
    simp [hpfix]
  have hnn2 : ∀ x ∈ normalizeWishlistEntries w ++ [p], x ≠ Json.null := by
    intro x hx
    rcases List.mem_append.mp hx with hx | hx
    · exact hnn x hx
    · simp only [List.mem_singleton] at hx
      subst hx
      exact hp
  show removeNewWishlist (normalizeWishlistEntries w ++ [p])
    product product_handle product_id = .ok (normalizeWishlistEntries w)
  unfold removeNewWishlist
  rw [hnorm, filterME_keepItem_eq _ _ hnn2, List.filter_append,
    List.filter_eq_self.mpr fun a ha => by simp [hothers a ha]]
  simp [hself]

theorem claim_C4_amended_witness :
    addThenRemove (fun _ => none) [] none (some (.str "red-shoe")) none
      = .ok [] :=
  (claim_C4_amended (fun _ => none) [] none (some (.str "red-shoe")) none
    (.obj [("handle", .str "red-shoe")]) rfl (by decide) rfl (by decide)
    (by decide) (by decide) (by decide)).trans rfl

/-- C6 counterexample: with expand=true, the stored entry with only
an id "9" is merged by the expand loop (the lookup finds a product
with handle "h" and title "t"), so the returned wishlist differs from
the normalized stored list — an entry changed — yet no persist is
attempted: the expand loop never sets needSave, and the backfill loop
skips the entry because it now has a handle. -/
theorem claim_C6_counterexample :
    (getWishlist
        (fun pid => if pid = "9"
          then some (.obj [("id", .str "9"), ("handle", .str "h"),
            ("title", .str "t"), ("image", .null)])
          else none)
        (some (.ok (.arr [.str "9"]))) true .ok).resp.wishlist
      ≠ normalizeWishlistEntries (loadWishlist (some (.ok (.arr [.str "9"]))))
    ∧ (getWishlist
        (fun pid => if pid = "9"
          then some (.obj [("id", .str "9"), ("handle", .str "h"),
            ("title", .str "t"), ("image", .null)])
          else none)
        (some (.ok (.arr [.str "9"]))) true .ok).persistAttempted = false :=
  ⟨by decide, rfl⟩

/-- C6 amended: during GET /wishlist, for every expand flag: every
entry of the normalized stored list with a truthy id and no truthy
handle has a product lookup attempted (by the expand loop or by the
backfill loop); the response is success true with the in-memory list
obtained by the expand rewrite (when requested) followed by the
per-entry backfill merge; a persist is attempted exactly when the
backfill merge changed some entry — entries changed only by the
expand loop trigger no persist; and the whole observable output is
independent of the persist outcome, so a failed best-effort persist
is never surfaced and the read still succeeds. -/
theorem claim_C6_amended (fetch : String → Option Json)
    (stored : Option (Except Unit Json)) (expand : Bool)
    (persist : PersistOutcome) :
    (∀ it ∈ normalizeWishlistEntries (loadWishlist stored),
        truthyO (jsGetSafe it "id") = true →
        truthyO (jsGetSafe it "handle") = false →
        backfillLookupId it ∈
          (getWishlist fetch stored expand persist).expandLookups
            ++ (getWishlist fetch stored expand persist).backfillLookups)
    ∧ (getWishlist fetch stored expand persist).resp
      = { success := true,
          wishlist := (expandPhase fetch expand
              (normalizeWishlistEntries (loadWishlist stored))).map
            (fun it => (backfillStep fetch it).1) }
    ∧ (getWishlist fetch stored expand persist).persistAttempted
      = (expandPhase fetch expand
          (normalizeWishlistEntries (loadWishlist stored))).any
          (fun it => (backfillStep fetch it).2.2)
    ∧ ∀ p1 p2 : PersistOutcome,
        getWishlist fetch stored expand p1 = getWishlist fetch stored expand p2 := by
  refine ⟨?_, ?_, ?_, fun p1 p2 => rfl⟩
  · intro it hit hid hh
    have htr : truthy it = true := truthy_of_field hid
    cases expand with
    | false =>
      refine List.mem_append.mpr (Or.inr ?_)
      show backfillLookupId it ∈ (mapCollect (backfillStep fetch)
        (normalizeWishlistEntries (loadWishlist stored))).2.1
      rw [mapCollect_lookups]
      refine List.mem_filterMap.mpr ⟨it, hit, ?_⟩
      rw [backfillStep_lookup]
      simp [backfillEligible, htr, hid, hh]
    | true =>
      by_cases ht : truthyO (jsGetSafe it "title") = true
      · refine List.mem_append.mpr (Or.inr ?_)
        show backfillLookupId it ∈ (mapCollect (backfillStep fetch)
          ((mapCollect (expandStep fetch)
            (normalizeWishlistEntries (loadWishlist stored))).1)).2.1
        rw [mapCollect_lookups]
        refine List.mem_filterMap.mpr ⟨it, ?_, ?_⟩
        · rw [mapCollect_fst]
          exact List.mem_map.mpr ⟨it, hit, expandStep_fst_of_title fetch ht⟩
        · rw [backfillStep_lookup]
          simp [backfillEligible, htr, hid, hh]
      · refine List.mem_append.mpr (Or.inl ?_)
        show backfillLookupId it ∈ (mapCollect (expandStep fetch)
          (normalizeWishlistEntries (loadWishlist stored))).2.1
        rw [mapCollect_lookups]
        refine List.mem_filterMap.mpr ⟨it, hit, ?_⟩
        rw [expandStep_lookup]
        simp [htr, hid, hh, ht, backfillLookupId]
  · cases expand with
    | false =>
      exact congrArg (fun l => WishResponse.mk true l)
        (mapCollect_fst (backfillStep fetch)
          (normalizeWishlistEntries (loadWishlist stored)))
    | true =>
      refine congrArg (fun l => WishResponse.mk true l) ?_
      have h2 := mapCollect_fst (backfillStep fetch)
        ((mapCollect (expandStep fetch)
          (normalizeWishlistEntries (loadWishlist stored))).1)
      refine h2.trans ?_
      rw [mapCollect_fst]
      rfl
  · cases expand with
    | false =>
      exact mapCollect_changed (backfillStep fetch)
        (normalizeWishlistEntries (loadWishlist stored))
    | true =>
      have h2 := mapCollect_changed (backfillStep fetch)
        ((mapCollect (expandStep fetch)
          (normalizeWishlistEntries (loadWishlist stored))).1)
      refine h2.trans ?_
      rw [mapCollect_fst]
      rfl

theorem claim_C6_amended_witness :
    backfillLookupId (.obj [("id", .str "9")]) ∈
      (getWishlist (fun _ => none)
          (some (.ok (.arr [.str "9"]))) true .ok).expandLookups
        ++ (getWishlist (fun _ => none)
            (some (.ok (.arr [.str "9"]))) true .ok).backfillLookups :=
  (claim_C6_amended (fun _ => none)
    (some (.ok (.arr [.str "9"]))) true .ok).1
    (.obj [("id", .str "9")]) (by decide) (by decide) (by decide)

/-- C7: when the staged-upload step reports a platform user error, or
yields no usable staged target or url, the upload pipeline answers a
caller (400) error and issues none of the later calls: no binary
upload POST, no file-registration mutation, no metafield attach. -/
theorem claim_C7_staged_error_aborts (staged : StagedResponse)
    (h : hasUserErrors staged.userErrors = true ∨ usableTarget staged = none) :
    ∀ (u : Except Unit Unit) (reg : RegisterResponse) (att : AttachResponse),
      (uploadPipeline staged u reg att).2 = []
      ∧ ∃ msg, (uploadPipeline staged u reg att).1 = .badRequest msg := by
  intro u reg att
  unfold uploadPipeline
  rcases h with h | h
  · simp [h]
  · by_cases he : hasUserErrors staged.userErrors
    · simp [he]
    · simp [he, h]

theorem claim_C7_witness :
    (uploadPipeline
        { userErrors := some [{ errField := none, message := "bad" }],
          stagedTargets := none }
        (.ok ()) { userErrors := none, fileIds := [] }
        { userErrors := none }).2 = []
    ∧ ∃ msg,
        (uploadPipeline
          { userErrors := some [{ errField := none, message := "bad" }],
            stagedTargets := none }
          (.ok ()) { userErrors := none, fileIds := [] }
          { userErrors := none }).1 = .badRequest msg :=
  claim_C7_staged_error_aborts
    { userErrors := some [{ errField := none, message := "bad" }],
      stagedTargets := none }
    (Or.inl rfl) (.ok ())
    { userErrors := none, fileIds := [] } { userErrors := none }

/-- C10: a request body with a valid customer id and a truthy
non-object product value (here the string "x") and no product id or
handle passes the missing-field validation, the resolved entry stays
null, the duplicate check dereferences it against the first stored
entry and throws, and the caller receives the 500 response. -/
theorem claim_C10_truthy_nonobject_product :
    wishlistBodyValid (some (.str "7")) none none (some (.str "x")) = true
    ∧ resolveNewProduct (fun _ => none) (some (.str "x")) none none = none
    ∧ addNewWishlist (fun _ => none) [.obj [("id", .str "9")]]
        (some (.str "x")) none none = .error ()
    ∧ addHandler (fun _ => none) (some (.ok (.arr [.obj [("id", .str "9")]])))
        (some (.str "7")) none none (some (.str "x")) .ok = .serverError :=
  ⟨rfl, rfl, rfl, rfl⟩
